import Mathlib

/-
Verification of the license-server HTTP service (src/license-server/index.js).

The JavaScript handlers are shallowly embedded as pure Lean functions:
  * strings are Lean `String`s (JS string values);
  * JS `null`/`undefined`-able request fields are `Option String`, with JS
    falsiness (`!x`) modelled by `jsFalsy` (absent, null or empty string);
  * timestamps are `Int` milliseconds since the epoch (`new Date(x)` on a
    stored value is `dateOf`, with `new Date(null) = 0`, the epoch);
  * the Supabase `licenses` table is a `List License`; `.single()` queries
    return a row only when exactly one row matches;
  * each handler takes the current time and the outcome flags of its store
    writes as explicit parameters and returns the HTTP response together
    with the resulting store contents;
  * a signed JWT is a `Token` record carrying its payload, its `iat` claim
    (whole seconds, `floor(now / 1000)`, as jsonwebtoken stamps it) and the
    secret it was signed with; HS256 signing is deterministic, so equal
    `Token` values model byte-identical credential strings; `jwtVerify`
    checks the secret and the 24-hour expiry window in seconds, mirroring
    `jwt.sign`/`jwt.verify` with `expiresIn: "24h"`;
  * `Math.random().toString(36)` outcomes are modelled by the exhaustive
    set of representable doubles `r = k / 2^53` with `k < 2^53`; the
    base-36 rendering `jsToString36` is the exact terminating expansion of
    that dyadic rational (every k/2^53 terminates within 27 base-36
    digits), with `(0).toString(36) = "0"`.
-/

namespace LicenseServer

/-! ## Duration parser (index.js lines 24-41, `getDurationMs`) -/

def defaultMs : Nat := 30 * 24 * 60 * 60 * 1000

def isDigitChar (c : Char) : Bool := '0' ≤ c ∧ c ≤ '9'

/-- JS `\s` on the ASCII range: space, tab, LF, VT, FF, CR. -/
def isSpaceChar (c : Char) : Bool :=
  c = ' ' ∨ c = '\t' ∨ c = '\n' ∨ c = '\x0b' ∨ c = '\x0c' ∨ c = '\r'

def jsLower (l : List Char) : List Char := l.map Char.toLower

def digitVal (c : Char) : Nat := c.toNat - 48

/-- `parseInt` on a nonempty digit string. -/
def natOfDigits (l : List Char) : Nat := l.foldl (fun a c => a * 10 + digitVal c) 0

/-- Case-insensitive: does the input (second list) start with the given
lowercase word? Models matching one alternative of `(day|hour|minute|second)`
under the `/i` flag. -/
def matchLowerPfx : List Char → List Char → Bool
  | [], _ => true
  | _ :: _, [] => false
  | p :: ps, c :: cs => p = c.toLower && matchLowerPfx ps cs

/-- The unit alternation `(day|hour|minute|second)` of the regex, tried at one
position, returning the canonical (lowercased) unit text. The four words start
with distinct letters, so alternation order is immaterial. -/
def unitAt (l : List Char) : Option String :=
  if matchLowerPfx ['d', 'a', 'y'] l then some "day"
  else if matchLowerPfx ['h', 'o', 'u', 'r'] l then some "hour"
  else if matchLowerPfx ['m', 'i', 'n', 'u', 't', 'e'] l then some "minute"
  else if matchLowerPfx ['s', 'e', 'c', 'o', 'n', 'd'] l then some "second"
  else none

/-- Leftmost match of `/(\d+)\s*(day|hour|minute|second)/i`: scan positions
left to right; at a digit, take the maximal digit run (`\d+` greedy; giving
digits back can never help, as no unit word starts with a digit or space),
skip whitespace (`\s*`), and try the unit alternation. -/
def scanDuration : List Char → Option (Nat × String)
  | [] => none
  | c :: rest =>
    if isDigitChar c then
      match unitAt ((rest.dropWhile isDigitChar).dropWhile isSpaceChar) with
      | some u => some (natOfDigits (c :: rest.takeWhile isDigitChar), u)
      | none => scanDuration rest
    else scanDuration rest

/-- The `switch (unit)` conversion. -/
def unitToMs (value : Nat) (unit : String) : Nat :=
  if unit = "day" then value * 24 * 60 * 60 * 1000
  else if unit = "hour" then value * 60 * 60 * 1000
  else if unit = "minute" then value * 60 * 1000
  else if unit = "second" then value * 1000
  else defaultMs

/-- `getDurationMs(durationStr)`: `none` is JS `null`/`undefined`; the empty
string is falsy, so `!durationStr` also returns the default for it. -/
def getDurationMs (durationStr : Option String) : Nat :=
  match durationStr with
  | none => defaultMs
  | some s =>
    if s = "" then defaultMs
    else if jsLower s.toList = "null".toList then defaultMs
    else
      match scanDuration s.toList with
      | none => defaultMs
      | some (v, u) => unitToMs v u

/-! ## Data model: license rows, the store, JS helpers -/

/-- One row of the Supabase `licenses` table.  `expires_at` is `none` while the
column is SQL `null` (before first activation). -/
structure License where
  id : Nat
  email : String
  license_key : String
  plan_duration : Option String
  status : String
  is_used : Bool
  expires_at : Option Int
  created_at : Int
deriving DecidableEq

abbrev Store := List License

/-- JS falsiness of an optional string request field: absent/`null` (`none`)
or the empty string. -/
def jsFalsy (o : Option String) : Prop := o = none ∨ o = some ""

instance (o : Option String) : Decidable (jsFalsy o) := by
  unfold jsFalsy; infer_instance

/-- `new Date(x)` on a stored timestamp: `new Date(null)` is the epoch (0). -/
def dateOf : Option Int → Int
  | none => 0
  | some t => t

/-- Predicate of the `/verify` lookup: `.eq("email", email).eq("license_key", license_key)`. -/
def credMatch (e k : String) (l : License) : Bool := l.email = e ∧ l.license_key = k

/-- `.select("*").eq(...).eq(...).single()`: a row only when exactly one matches. -/
def findByCreds (st : Store) (e k : String) : Option License :=
  match st.filter (credMatch e k) with
  | [l] => some l
  | _ => none

/-- `.select(...).eq("id", id).single()` of `/validate-token`. -/
def findById (st : Store) (i : Nat) : Option License :=
  match st.filter (fun l => l.id = i) with
  | [l] => some l
  | _ => none

/-- `.update({ status }).eq("id", id)`. -/
def updateStatus (st : Store) (i : Nat) (s : String) : Store :=
  st.map (fun l => if l.id = i then { l with status := s } else l)

/-- The first-activation row update:
`{ is_used: true, expires_at, status: "active" }`. -/
def activateRow (expiry : Int) (l : License) : License :=
  { l with is_used := true, expires_at := some expiry, status := "active" }

/-- `.update({...}).eq("id", id)` of the first-activation write. -/
def activateById (st : Store) (i : Nat) (expiry : Int) : Store :=
  st.map (fun l => if l.id = i then activateRow expiry l else l)

/-! ## Session credentials (jsonwebtoken with `expiresIn: "24h"`) -/

/-- A signed token: payload `{ id, email }`, the `iat` claim in whole
seconds, and the secret the signature binds it to.  HS256 is deterministic,
so two equal `Token` values stand for byte-identical token strings. -/
structure Token where
  id : Nat
  email : String
  iat : Int
  secret : String
deriving DecidableEq

/-- `jwt.sign({ id, email }, secret, { expiresIn: "24h" })` at clock time
`now` (milliseconds): jsonwebtoken stamps `iat = Math.floor(now / 1000)`,
whole seconds (integer division agrees with `Math.floor` on the nonnegative
clock values concerned). -/
def jwtSign (id : Nat) (email : String) (secret : String) (now : Int) : Token :=
  ⟨id, email, now / 1000, secret⟩

/-- `jwt.verify`: the payload when the signature checks out against `secret`
and the token's own 24-hour window has not elapsed at clock second
`floor(now / 1000)` (`exp = iat + 86400`); `none` models the throw
(`INVALID_SESSION`). -/
def jwtVerify (t : Token) (secret : String) (now : Int) : Option (Nat × String) :=
  if t.secret = secret ∧ now / 1000 < t.iat + 86400 then some (t.id, t.email) else none

/-! ## POST /verify (index.js lines 46-123) -/

inductive VerifyResp where
  | badRequest (msg : String)
  | notFound (msg : String)
  | forbidden (msg : String)
  | ok (token : Token)
  | serverError
deriving DecidableEq

/-- The `/verify` handler.  `lazyFail` is the outcome of the fire-and-forget
`update({ status: "expired" })` (its result object is ignored by the code, so
it only affects the store, never the response); `activateFail` is the outcome
of the first-activation update (its error is thrown, yielding 500). -/
def verifyHandler (st : Store) (email license_key : Option String) (now : Int)
    (secret : String) (lazyFail activateFail : Bool) : VerifyResp × Store :=
  if jsFalsy email ∨ jsFalsy license_key then
    (.badRequest "Missing email or license key", st)
  else
    match findByCreds st (email.getD "") (license_key.getD "") with
    | none => (.notFound "Invalid credentials", st)
    | some license =>
      if license.status = "revoked" ∨ license.status = "suspended" then
        (.forbidden "License revoked", st)
      else if license.is_used ∧ license.expires_at.isSome then
        if dateOf license.expires_at < now then
          (.forbidden "License expired",
           if license.status ≠ "expired" ∧ lazyFail = false then
             updateStatus st license.id "expired"
           else st)
        else
          (.ok (jwtSign license.id license.email secret now), st)
      else
        if activateFail then (.serverError, st)
        else
          let activated := activateRow (now + (getDurationMs license.plan_duration : Int)) license
          (.ok (jwtSign activated.id activated.email secret now),
           activateById st license.id (now + (getDurationMs license.plan_duration : Int)))

/-! ## GET /validate-token (index.js lines 128-173) -/

/-- The `Authorization` header: absent, not of the `Bearer <token>` shape, or
carrying a token. -/
inductive AuthHeader where
  | missing
  | malformed
  | bearer (t : Token)

inductive ValResp where
  | invalid (code : Nat) (reason : String)
  | valid
deriving DecidableEq

/-- The `/validate-token` handler; `lazyFail` as in `verifyHandler`. -/
def validateToken (st : Store) (h : AuthHeader) (secret : String) (now : Int)
    (lazyFail : Bool) : ValResp × Store :=
  match h with
  | .missing => (.invalid 401 "NO_TOKEN", st)
  | .malformed => (.invalid 401 "NO_TOKEN", st)
  | .bearer t =>
    match jwtVerify t secret now with
    | none => (.invalid 401 "INVALID_SESSION", st)
    | some (id, _) =>
      match findById st id with
      | none => (.invalid 401 "NOT_FOUND", st)
      | some license =>
        if license.status = "revoked" ∨ license.status = "suspended" then
          (.invalid 403 "REVOKED", st)
        else if dateOf license.expires_at < now ∨ license.status = "expired" then
          (.invalid 401 "EXPIRED",
           if license.status ≠ "expired" ∧ lazyFail = false then
             updateStatus st license.id "expired"
           else st)
        else (.valid, st)

/-! ## Key generation (`Math.random().toString(36).substring(2, 6).toUpperCase()`,
index.js lines 189-191) -/

/-- The denominator of the dyadic outcomes of `Math.random()`: every outcome
is `k / 2^53` with `k < TWO53`. -/
def TWO53 : Nat := 2 ^ 53

/-- The first `n` base-36 fraction digits of `k / 2^53`. -/
def base36FracDigits : Nat → Nat → List Nat
  | _, 0 => []
  | k, n + 1 => (k * 36 / TWO53) :: base36FracDigits (k * 36 % TWO53) n

def trimZeros (l : List Nat) : List Nat :=
  (l.reverse.dropWhile (fun d => d = 0)).reverse

/-- Base-36 digit characters as produced by `toString(36)`: `0`-`9` then
lowercase `a`-`z`. -/
def digitChar36 (d : Nat) : Char :=
  if d < 10 then Char.ofNat (48 + d) else Char.ofNat (87 + d)

/-- `r.toString(36)` for `r = k / 2^53`: `"0"` when `r = 0`, otherwise
`"0."` followed by the exact base-36 expansion without trailing zeros (every
`k / 2^53` terminates within 27 base-36 digits, since `2^53` divides
`36^27`). -/
def jsToString36 (k : Nat) : List Char :=
  if k = 0 then ['0']
  else '0' :: '.' :: (trimZeros (base36FracDigits k 27)).map digitChar36

/-- `String.prototype.substring(a, b)` (clamping at the string's end). -/
def jsSubstr (l : List Char) (a b : Nat) : List Char := (l.take b).drop a

/-- `toUpperCase` on one character (ASCII). -/
def jsUpperChar (c : Char) : Char :=
  if 'a' ≤ c ∧ c ≤ 'z' then Char.ofNat (c.toNat - 32) else c

/-- One `Math.random().toString(36).substring(2, 6).toUpperCase()` part. -/
def keyPart (r : Nat) : List Char := (jsSubstr (jsToString36 r) 2 6).map jsUpperChar

/-- `` `PRO-${part1}-${part2}` ``. -/
def genKey (r1 r2 : Nat) : List Char :=
  ['P', 'R', 'O', '-'] ++ keyPart r1 ++ ['-'] ++ keyPart r2

def isUpperAlnum (c : Char) : Bool :=
  ('0' ≤ c ∧ c ≤ '9') ∨ ('A' ≤ c ∧ c ≤ 'Z')

/-- The spec's key format: exactly `PRO-XXXX-XXXX` with each `X` an uppercase
alphanumeric character. -/
def matchesProFormat : List Char → Bool
  | 'P' :: 'R' :: 'O' :: '-' :: a :: b :: c :: d :: '-' :: e :: f :: g :: h :: [] =>
    isUpperAlnum a && isUpperAlnum b && isUpperAlnum c && isUpperAlnum d &&
    isUpperAlnum e && isUpperAlnum f && isUpperAlnum g && isUpperAlnum h
  | _ => false

/-! ## POST /generate (index.js lines 178-211) -/

inductive GenResp where
  | unauthorized
  | badRequest (msg : String)
  | fail
  | ok (license : License)
deriving DecidableEq

/-- `plan_duration || "30 days"`. -/
def jsOrDefault (o : Option String) (d : String) : String :=
  match o with
  | none => d
  | some s => if s = "" then d else s

/-- The row the handler inserts (`expires_at` stays SQL `null`; the store
assigns the id `nid`). -/
def mkGenLicense (nid : Nat) (email : String) (plan : Option String)
    (key : String) (now : Int) : License :=
  { id := nid, email := email, license_key := key,
    plan_duration := some (jsOrDefault plan "30 days"),
    status := "active", is_used := false, expires_at := none, created_at := now }

/-- The `/generate` handler.  `admin` is the request's `admin_secret`
(`none` when absent; `!==` against the configured secret `envAdmin`); `r1`,
`r2` are the two `Math.random()` outcomes as numerators over `2^53`;
`insertFail` is the outcome of the insert (error → 500, store unchanged). -/
def generateHandler (st : Store) (email plan admin : Option String)
    (envAdmin : String) (r1 r2 : Nat) (nid : Nat) (now : Int)
    (insertFail : Bool) : GenResp × Store :=
  if admin ≠ some envAdmin then (.unauthorized, st)
  else if jsFalsy email then (.badRequest "Email required", st)
  else
    let newRec := mkGenLicense nid (email.getD "") plan (String.mk (genKey r1 r2)) now
    if insertFail then (.fail, st)
    else (.ok newRec, st ++ [newRec])

/-! ## Helper lemmas -/

theorem expires_map_updateStatus (st : Store) (i : Nat) (s : String) :
    (updateStatus st i s).map License.expires_at = st.map License.expires_at := by
  unfold updateStatus
  rw [List.map_map]
  apply List.map_congr_left
  intro a _
  by_cases h : a.id = i <;> simp [h]

theorem base36FracDigits_lt (n : Nat) : ∀ k, k < TWO53 →
    ∀ d ∈ base36FracDigits k n, d < 36 := by
  induction n with
  | zero => intro k _ d hd; simp [base36FracDigits] at hd
  | succ m ih =>
    intro k hk d hd
    simp only [base36FracDigits, List.mem_cons] at hd
    rcases hd with h | h
    · subst h
      have h36 : k * 36 < TWO53 * 36 := (Nat.mul_lt_mul_right (by norm_num)).mpr hk
      exact Nat.div_lt_of_lt_mul h36
    · exact ih (k * 36 % TWO53) (Nat.mod_lt _ (by unfold TWO53; positivity)) d h

theorem mem_trimZeros {d : Nat} {l : List Nat} (h : d ∈ trimZeros l) : d ∈ l := by
  unfold trimZeros at h
  rw [List.mem_reverse] at h
  have := (List.dropWhile_sublist (l := l.reverse) (p := fun x => x = 0)).mem h
  rwa [List.mem_reverse] at this

theorem digit36_upperAlnum : ∀ d, d < 36 → isUpperAlnum (jsUpperChar (digitChar36 d)) = true := by
  decide

theorem keyPart_take (r : Nat) (hr : r ≠ 0) :
    keyPart r = (((trimZeros (base36FracDigits r 27)).map digitChar36).take 4).map jsUpperChar := by
  unfold keyPart jsToString36 jsSubstr
  rw [if_neg hr]
  simp [List.take_cons, List.drop_succ_cons]

theorem keyPart_length_le (r : Nat) : (keyPart r).length ≤ 4 := by
  by_cases hr : r = 0
  · subst hr; decide
  · rw [keyPart_take r hr]
    simp [List.length_take]

theorem keyPart_all_upperAlnum (r : Nat) (hr : r < TWO53) :
    (keyPart r).all isUpperAlnum = true := by
  by_cases h0 : r = 0
  · subst h0; decide
  · rw [keyPart_take r h0, List.all_eq_true]
    intro c hc
    rw [List.mem_map] at hc
    obtain ⟨c0, hc0, rfl⟩ := hc
    have hc1 := List.mem_of_mem_take hc0
    rw [List.mem_map] at hc1
    obtain ⟨d, hd, rfl⟩ := hc1
    exact digit36_upperAlnum d (base36FracDigits_lt 27 r hr d (mem_trimZeros hd))

theorem credMatch_activate (e k : String) (i : Nat) (x : Int) (l : License) :
    credMatch e k (if l.id = i then activateRow x l else l) = credMatch e k l := by
  by_cases h : l.id = i <;> simp [h, credMatch, activateRow]

theorem filter_creds_activateById (st : Store) (i : Nat) (x : Int) (e k : String) :
    (activateById st i x).filter (credMatch e k)
      = ((st.filter (credMatch e k)).map (fun l => if l.id = i then activateRow x l else l)) := by
  unfold activateById
  induction st with
  | nil => rfl
  | cons a t ih =>
    simp only [List.map_cons, List.filter_cons, credMatch_activate]
    by_cases h : credMatch e k a
    · simp [h, ih]
    · simp [h, ih]

theorem findByCreds_activateById (st : Store) (i : Nat) (x : Int) (e k : String) :
    findByCreds (activateById st i x) e k
      = (findByCreds st e k).map (fun l => if l.id = i then activateRow x l else l) := by
  unfold findByCreds
  rw [filter_creds_activateById]
  rcases st.filter (credMatch e k) with _ | ⟨a, _ | ⟨b, t⟩⟩ <;> simp

theorem status_mem_updateStatus (st : Store) (i : Nat) (s : String) :
    ∀ r ∈ updateStatus st i s, r.id = i → r.status = s := by
  intro r hr hid
  unfold updateStatus at hr
  rw [List.mem_map] at hr
  obtain ⟨a, _, ha⟩ := hr
  by_cases h : a.id = i
  · rw [if_pos h] at ha; rw [← ha]
  · rw [if_neg h] at ha; subst ha; exact absurd hid h

theorem status_all_updateStatus (st : Store) (i : Nat) (s : String) :
    ((updateStatus st i s).filter (fun r => r.id = i)).all (fun r => r.status = s) = true := by
  rw [List.all_eq_true]
  intro r hr
  rw [List.mem_filter] at hr
  have := status_mem_updateStatus st i s r hr.1 (by simpa using hr.2)
  simp [this]

/-! ## Witness fixtures -/

def wl2 : License := ⟨1, "a@b.com", "K", some "30 days", "active", true, some 500, 0⟩

def cexL2 : License := ⟨1, "a@b.com", "K", none, "active", true, none, 0⟩

def wl3 : License := ⟨1, "a@b.com", "K", some "30 days", "active", true, some 50, 0⟩

def wt3 : Token := ⟨1, "a@b.com", 0, "s"⟩

def cexL3 : License := ⟨1, "a@b.com", "K", some "30 days", "active", false, some 50, 0⟩

def wl4 : License := ⟨1, "a", "K", none, "revoked", true, some 10, 0⟩

def wt4 : Token := ⟨1, "a", 0, "s"⟩

def wl5 : License := ⟨1, "a", "K", some "1 day", "active", false, none, 0⟩

def wl7 : License := ⟨1, "a", "K", some "30 days", "active", true, some 50, 0⟩

def wt7 : Token := ⟨1, "a", 0, "s"⟩

def wl10 : License := ⟨1, "a", "K", some "30 days", "active", false, none, 0⟩

def wt10 : Token := ⟨1, "a", 0, "s"⟩

/-! ## Claim theorems -/

/-- C1 (counterexample): the generation claim fails as stated.  When both
`Math.random()` outcomes are exactly 0 (a representable outcome), each
`toString(36)` is `"0"`, whose `substring(2, 6)` is empty, so the inserted
record's `license_key` is `"PRO--"`, which does not match `PRO-XXXX-XXXX` with
exactly four uppercase alphanumerics per group. -/
theorem generate_key_format_cex :
    (generateHandler [] (some "a@b.com") none (some "s") "s" 0 0 1 0 false).2
        = [mkGenLicense 1 "a@b.com" none (String.mk (genKey 0 0)) 0]
    ∧ (mkGenLicense 1 "a@b.com" none (String.mk (genKey 0 0)) 0).license_key = "PRO--"
    ∧ matchesProFormat
        (mkGenLicense 1 "a@b.com" none (String.mk (genKey 0 0)) 0).license_key.toList
      = false := by
  decide

/-- C1 (amended): for every execution of generate that passes the admin-secret
and email checks, and for every pair of RNG outcomes `r/2^53`, the inserted
record's `license_key` is `PRO-P1-P2` where each part consists of AT MOST 4
uppercase alphanumeric characters (fewer when the random value's base-36
rendering is shorter than 6 characters, e.g. 0 or 0.5). -/
theorem generate_key_format_amended (st : Store) (em : String) (plan : Option String)
    (sec : String) (r1 r2 nid : Nat) (now : Int)
    (h1 : r1 < TWO53) (h2 : r2 < TWO53) (hem : em ≠ "") :
    (generateHandler st (some em) plan (some sec) sec r1 r2 nid now false).1
        = GenResp.ok (mkGenLicense nid em plan (String.mk (genKey r1 r2)) now)
    ∧ (String.mk (genKey r1 r2)).toList
        = ['P', 'R', 'O', '-'] ++ keyPart r1 ++ ['-'] ++ keyPart r2
    ∧ (keyPart r1).length ≤ 4 ∧ (keyPart r2).length ≤ 4
    ∧ (keyPart r1).all isUpperAlnum = true
    ∧ (keyPart r2).all isUpperAlnum = true := by
  refine ⟨?_, rfl, keyPart_length_le r1, keyPart_length_le r2,
    keyPart_all_upperAlnum r1 h1, keyPart_all_upperAlnum r2 h2⟩
  simp [generateHandler, jsFalsy, hem]

/-- C1 (witness): the amended statement at two concrete RNG outcomes
(0.55... and 0.5, i.e. numerators 2476979795053773 and 2^52 over 2^53). -/
theorem generate_key_format_amended_witness :
    (generateHandler [] (some "a@b.com") none (some "s") "s"
        2476979795053773 4503599627370496 1 0 false).1
        = GenResp.ok (mkGenLicense 1 "a@b.com" none
            (String.mk (genKey 2476979795053773 4503599627370496)) 0)
    ∧ (String.mk (genKey 2476979795053773 4503599627370496)).toList
        = ['P', 'R', 'O', '-'] ++ keyPart 2476979795053773 ++ ['-']
            ++ keyPart 4503599627370496
    ∧ (keyPart 2476979795053773).length ≤ 4 ∧ (keyPart 4503599627370496).length ≤ 4
    ∧ (keyPart 2476979795053773).all isUpperAlnum = true
    ∧ (keyPart 4503599627370496).all isUpperAlnum = true :=
  generate_key_format_amended [] "a@b.com" none "s" 2476979795053773 4503599627370496 1 0
    (by decide) (by decide) (by decide)

/-- C2 (counterexample): the claim fails as stated.  The already-activated
branch requires `is_used && expires_at` (index.js line 72), so a record with
`is_used = true` but `expires_at` null falls through to the first-activation
branch, which overwrites `expires_at`. -/
theorem verify_branch_condition_cex :
    cexL2.is_used = true
    ∧ verifyHandler [cexL2] (some "a@b.com") (some "K") 100 "s" false false
        = (VerifyResp.ok (jwtSign 1 "a@b.com" "s" 100), [activateRow 2592000100 cexL2])
    ∧ (activateRow 2592000100 cexL2).expires_at ≠ cexL2.expires_at := by
  decide

/-- C2 (amended): for every license record with `is_used = true` AND
`expires_at` set, verify takes the already-activated branch and never
recomputes or overwrites any record's `expires_at`; the first-activation
write runs only for records with `is_used = false` or `expires_at` null. -/
theorem verify_already_activated_amended (st : Store) (e k : String) (l : License)
    (now : Int) (secret : String) (lf af : Bool)
    (he : e ≠ "") (hk : k ≠ "")
    (hfind : findByCreds st e k = some l)
    (hused : l.is_used = true) (hsome : l.expires_at.isSome = true) :
    ((verifyHandler st (some e) (some k) now secret lf af).2).map License.expires_at
      = st.map License.expires_at := by
  unfold verifyHandler
  rw [if_neg (by simp [jsFalsy, he, hk])]
  simp only [Option.getD_some, hfind]
  by_cases h1 : l.status = "revoked" ∨ l.status = "suspended"
  · rw [if_pos h1]
  · rw [if_neg h1, if_pos ⟨hused, hsome⟩]
    by_cases h2 : dateOf l.expires_at < now
    · rw [if_pos h2]
      by_cases h3 : l.status ≠ "expired" ∧ lf = false
      · simp only [if_pos h3]
        exact expires_map_updateStatus st l.id "expired"
      · simp only [if_neg h3]
    · rw [if_neg h2]

/-- C2 (witness): the amended statement on a one-row store holding an
activated, unexpired license, with both write-failure flags set. -/
theorem verify_already_activated_amended_witness :
    ((verifyHandler [wl2] (some "a@b.com") (some "K") 100 "s" true true).2).map
        License.expires_at
      = [wl2].map License.expires_at :=
  verify_already_activated_amended [wl2] "a@b.com" "K" wl2 100 "s" true true
    (by decide) (by decide) (by decide) (by decide) (by decide)

/-- C3 (counterexample): the claim fails as stated for verify.  A license with
`expires_at` in the past and `status = "active"` but `is_used = false` takes
the first-activation branch (condition `is_used && expires_at`, line 72), so
verify answers success, not Forbidden "License expired". -/
theorem expired_active_verify_cex :
    cexL3.status = "active" ∧ cexL3.expires_at = some 50 ∧ ((50 : Int) < 100)
    ∧ (verifyHandler [cexL3] (some "a@b.com") (some "K") 100 "s" false false).1
        = VerifyResp.ok (jwtSign 1 "a@b.com" "s" 100)
    ∧ (verifyHandler [cexL3] (some "a@b.com") (some "K") 100 "s" false false).1
        ≠ VerifyResp.forbidden "License expired" := by
  decide

/-- C3 (amended): for every ACTIVATED license (`is_used = true`) whose
`expires_at` is past and whose status is "active", verify answers Forbidden
"License expired"; validate-token answers valid:false EXPIRED for any such
license even on a correctly signed credential inside its own 24-hour window
(store state is authoritative); after either call (lazy write succeeding) the
stored status of that license is "expired". -/
theorem expiry_denied_amended (st : Store) (e k : String) (l : License)
    (now x : Int) (secret : String) (af : Bool) (t : Token)
    (he : e ≠ "") (hk : k ≠ "")
    (hfind : findByCreds st e k = some l)
    (hused : l.is_used = true)
    (hexp : l.expires_at = some x) (hpast : x < now)
    (hstat : l.status = "active")
    (hsec : t.secret = secret) (hwin : now / 1000 < t.iat + 86400)
    (hid : findById st t.id = some l) :
    verifyHandler st (some e) (some k) now secret false af
        = (.forbidden "License expired", updateStatus st l.id "expired")
    ∧ validateToken st (.bearer t) secret now false
        = (.invalid 401 "EXPIRED", updateStatus st l.id "expired")
    ∧ ((updateStatus st l.id "expired").filter (fun r => r.id = l.id)).all
        (fun r => r.status = "expired") = true := by
  refine ⟨?_, ?_, status_all_updateStatus st l.id "expired"⟩
  · simp [verifyHandler, jsFalsy, he, hk, hfind, hstat, hused, hexp, dateOf, hpast]
  · simp [validateToken, jwtVerify, hsec, hwin, hid, hstat, hexp, dateOf, hpast]

/-- C3 (witness): the amended statement on a one-row store holding an
activated license expired at 50, checked at time 100 with a token signed at
time 0. -/
theorem expiry_denied_amended_witness :
    verifyHandler [wl3] (some "a@b.com") (some "K") 100 "s" false false
        = (.forbidden "License expired", updateStatus [wl3] wl3.id "expired")
    ∧ validateToken [wl3] (.bearer wt3) "s" 100 false
        = (.invalid 401 "EXPIRED", updateStatus [wl3] wl3.id "expired")
    ∧ ((updateStatus [wl3] wl3.id "expired").filter (fun r => r.id = wl3.id)).all
        (fun r => r.status = "expired") = true :=
  expiry_denied_amended [wl3] "a@b.com" "K" wl3 100 50 "s" false wt3
    (by decide) (by decide) (by decide) (by decide) (by decide) (by decide)
    (by decide) (by decide) (by decide) (by decide)

/-- C4: for every license with status "revoked" or "suspended", verify answers
Forbidden "License revoked" and validate-token answers valid:false REVOKED,
with the store untouched, regardless of `is_used` and `expires_at` (no
hypothesis constrains them; the checks precede the expiry checks). -/
theorem revoked_precedence (st : Store) (e k : String) (l : License) (now : Int)
    (secret : String) (lf af : Bool) (t : Token)
    (he : e ≠ "") (hk : k ≠ "")
    (hfind : findByCreds st e k = some l)
    (hstat : l.status = "revoked" ∨ l.status = "suspended")
    (hsec : t.secret = secret) (hwin : now / 1000 < t.iat + 86400)
    (hid : findById st t.id = some l) :
    verifyHandler st (some e) (some k) now secret lf af
        = (.forbidden "License revoked", st)
    ∧ validateToken st (.bearer t) secret now lf
        = (.invalid 403 "REVOKED", st) := by
  constructor
  · rcases hstat with h | h <;>
      simp [verifyHandler, jsFalsy, he, hk, hfind, h]
  · rcases hstat with h | h <;>
      simp [validateToken, jwtVerify, hsec, hwin, hid, h]

/-- C4 (witness): a revoked license whose `expires_at` has also passed and
whose `is_used` is true still answers revoked on both endpoints. -/
theorem revoked_precedence_witness :
    verifyHandler [wl4] (some "a") (some "K") 100 "s" false false
        = (.forbidden "License revoked", [wl4])
    ∧ validateToken [wl4] (.bearer wt4) "s" 100 false
        = (.invalid 403 "REVOKED", [wl4]) :=
  revoked_precedence [wl4] "a" "K" wl4 100 "s" false false wt4
    (by decide) (by decide) (by decide) (by decide) (by decide) (by decide) (by decide)

/-- C5 (counterexample): the claim fails as stated.  jsonwebtoken stamps
`iat` in whole seconds and HS256 signing is deterministic, so a second verify
call within the same clock second as the first (here 0 ms and 100 ms) returns
a byte-identical session credential, not a different one; the activation and
the write-free second call behave as claimed. -/
theorem same_second_credential_cex :
    verifyHandler [wl5] (some "a") (some "K") 0 "s" false false
      = (VerifyResp.ok (jwtSign wl5.id wl5.email "s" 0),
         activateById [wl5] wl5.id 86400000)
    ∧ (verifyHandler (activateById [wl5] wl5.id 86400000)
          (some "a") (some "K") 100 "s" false false).1
      = VerifyResp.ok (jwtSign wl5.id wl5.email "s" 100)
    ∧ jwtSign wl5.id wl5.email "s" 100 = jwtSign wl5.id wl5.email "s" 0 := by
  decide

/-- C5 (amended): calling verify twice with valid credentials for a
never-used, non-revoked license: the first call activates (is_used
false→true, fresh `expires_at = now1 + parse(plan_duration)`); the second
call, while `expires_at` is still in the future, performs no store write at
all (the resulting store is exactly the store after the first call, for any
write-failure flags) and returns success; the returned session credential
differs from the first PROVIDED the two calls fall in different whole clock
seconds (jsonwebtoken's `iat` granularity) — same-second calls return an
identical credential. -/
theorem activation_idempotence (st : Store) (e k : String) (l : License)
    (now1 now2 : Int) (secret : String) (lf1 lf2 af2 : Bool)
    (he : e ≠ "") (hk : k ≠ "")
    (hfind : findByCreds st e k = some l)
    (hunused : l.is_used = false)
    (hrev : l.status ≠ "revoked") (hsus : l.status ≠ "suspended")
    (_horder : now1 < now2)
    (hsecond : now1 / 1000 < now2 / 1000)
    (hfut : now2 < now1 + (getDurationMs l.plan_duration : Int)) :
    verifyHandler st (some e) (some k) now1 secret lf1 false
      = (VerifyResp.ok (jwtSign l.id l.email secret now1),
         activateById st l.id (now1 + (getDurationMs l.plan_duration : Int)))
    ∧ findByCreds (activateById st l.id (now1 + (getDurationMs l.plan_duration : Int))) e k
        = some (activateRow (now1 + (getDurationMs l.plan_duration : Int)) l)
    ∧ (activateRow (now1 + (getDurationMs l.plan_duration : Int)) l).is_used = true
    ∧ (activateRow (now1 + (getDurationMs l.plan_duration : Int)) l).expires_at
        = some (now1 + (getDurationMs l.plan_duration : Int))
    ∧ verifyHandler (activateById st l.id (now1 + (getDurationMs l.plan_duration : Int)))
        (some e) (some k) now2 secret lf2 af2
      = (VerifyResp.ok (jwtSign l.id l.email secret now2),
         activateById st l.id (now1 + (getDurationMs l.plan_duration : Int)))
    ∧ jwtSign l.id l.email secret now2 ≠ jwtSign l.id l.email secret now1 := by
  have hfind2 : findByCreds (activateById st l.id
      (now1 + (getDurationMs l.plan_duration : Int))) e k
      = some (activateRow (now1 + (getDurationMs l.plan_duration : Int)) l) := by
    rw [findByCreds_activateById, hfind]
    simp
  refine ⟨?_, hfind2, rfl, rfl, ?_, ?_⟩
  · simp [verifyHandler, jsFalsy, he, hk, hfind, hrev, hsus, hunused, activateRow]
  · simp only [verifyHandler, jsFalsy]
    rw [if_neg (by simp [jsFalsy, he, hk])]
    simp only [Option.getD_some, hfind2]
    simp [activateRow, dateOf, not_lt.mpr (le_of_lt hfut)]
  · intro h
    have := congrArg Token.iat h
    simp only [jwtSign] at this
    exact absurd this (ne_of_gt hsecond)

/-- C5 (witness): a fresh "1 day" license activated at time 0 ms and
re-verified at time 1500 ms (a different clock second) with both failure
flags raised on the second call. -/
theorem activation_idempotence_witness :
    verifyHandler [wl5] (some "a") (some "K") 0 "s" false false
      = (VerifyResp.ok (jwtSign wl5.id wl5.email "s" 0),
         activateById [wl5] wl5.id (0 + (getDurationMs wl5.plan_duration : Int)))
    ∧ findByCreds (activateById [wl5] wl5.id
          (0 + (getDurationMs wl5.plan_duration : Int))) "a" "K"
        = some (activateRow (0 + (getDurationMs wl5.plan_duration : Int)) wl5)
    ∧ (activateRow (0 + (getDurationMs wl5.plan_duration : Int)) wl5).is_used = true
    ∧ (activateRow (0 + (getDurationMs wl5.plan_duration : Int)) wl5).expires_at
        = some (0 + (getDurationMs wl5.plan_duration : Int))
    ∧ verifyHandler (activateById [wl5] wl5.id
          (0 + (getDurationMs wl5.plan_duration : Int))) (some "a") (some "K") 1500 "s" true true
      = (VerifyResp.ok (jwtSign wl5.id wl5.email "s" 1500),
         activateById [wl5] wl5.id (0 + (getDurationMs wl5.plan_duration : Int)))
    ∧ jwtSign wl5.id wl5.email "s" 1500 ≠ jwtSign wl5.id wl5.email "s" 0 :=
  activation_idempotence [wl5] "a" "K" wl5 0 1500 "s" false true true
    (by decide) (by decide) (by decide) (by decide) (by decide) (by decide)
    (by decide) (by decide) (by decide)

/-- C6: the duration parser's values: defaults on null/"null"/no match (30
days = 2592000000 ms), "5 days" = 432000000, "2 hours" = 7200000; matching is
case-insensitive ("5 DAYS"), the unit matches as a prefix ("5 day",
"2 hourly", "3seconds"), and only the first matched integer-unit pair counts
("1 day 2 hours", and a match found after unmatched text in "x 7 hours"). -/
theorem duration_parser_props :
    getDurationMs none = 2592000000
    ∧ getDurationMs (some "null") = 2592000000
    ∧ getDurationMs (some "NULL") = 2592000000
    ∧ getDurationMs (some "5 days") = 432000000
    ∧ getDurationMs (some "2 hours") = 7200000
    ∧ getDurationMs (some "gibberish") = 2592000000
    ∧ getDurationMs (some "5 DAYS") = 432000000
    ∧ getDurationMs (some "5 day") = 432000000
    ∧ getDurationMs (some "10 minutes") = 600000
    ∧ getDurationMs (some "3seconds") = 3000
    ∧ getDurationMs (some "2 hourly") = 7200000
    ∧ getDurationMs (some "1 day 2 hours") = 86400000
    ∧ getDurationMs (some "x 7 hours") = 25200000 := by
  decide

/-- C7: when the lazy mark-expired store write fails (`lazyFail = true`)
during verify or validate-token on an activated, past-expiry, still-"active"
license, the caller still receives the expiry denial (Forbidden "License
expired" / valid:false EXPIRED) and the store is returned completely
unchanged. -/
theorem lazy_expire_write_failure (st : Store) (e k : String) (l : License)
    (now x : Int) (secret : String) (af : Bool) (t : Token)
    (he : e ≠ "") (hk : k ≠ "")
    (hfind : findByCreds st e k = some l)
    (hused : l.is_used = true)
    (hexp : l.expires_at = some x) (hpast : x < now)
    (hstat : l.status = "active")
    (hsec : t.secret = secret) (hwin : now / 1000 < t.iat + 86400)
    (hid : findById st t.id = some l) :
    verifyHandler st (some e) (some k) now secret true af
        = (.forbidden "License expired", st)
    ∧ validateToken st (.bearer t) secret now true
        = (.invalid 401 "EXPIRED", st) := by
  constructor
  · simp [verifyHandler, jsFalsy, he, hk, hfind, hstat, hused, hexp, dateOf, hpast]
  · simp [validateToken, jwtVerify, hsec, hwin, hid, hstat, hexp, dateOf, hpast]

/-- C7 (witness): the failing lazy write on a one-row store: denial returned,
store identical. -/
theorem lazy_expire_write_failure_witness :
    verifyHandler [wl7] (some "a") (some "K") 100 "s" true true
        = (.forbidden "License expired", [wl7])
    ∧ validateToken [wl7] (.bearer wt7) "s" 100 true
        = (.invalid 401 "EXPIRED", [wl7]) :=
  lazy_expire_write_failure [wl7] "a" "K" wl7 100 50 "s" true wt7
    (by decide) (by decide) (by decide) (by decide) (by decide) (by decide)
    (by decide) (by decide) (by decide) (by decide)

/-- C8: generate answers Unauthorized whenever `admin_secret` differs from the
configured secret, even when the email is also missing (the check precedes
every other validation); answers BadRequest "Email required" on a falsy email
with a correct secret; and otherwise inserts (appends) a record with
`is_used = false`, `status = "active"`, `expires_at` null,
`plan_duration = plan_duration || "30 days"`, `created_at = now`, and returns
that record. -/
theorem generate_contract (st : Store) (email plan badAdmin noEmail : Option String)
    (envA : String) (r1 r2 nid : Nat) (now : Int) (ifail : Bool)
    (hbad : badAdmin ≠ some envA) (hnoe : jsFalsy noEmail) (hemail : ¬ jsFalsy email) :
    generateHandler st noEmail plan badAdmin envA r1 r2 nid now ifail
        = (.unauthorized, st)
    ∧ generateHandler st noEmail plan (some envA) envA r1 r2 nid now ifail
        = (.badRequest "Email required", st)
    ∧ generateHandler st email plan (some envA) envA r1 r2 nid now false
        = (.ok (mkGenLicense nid (email.getD "") plan (String.mk (genKey r1 r2)) now),
           st ++ [mkGenLicense nid (email.getD "") plan (String.mk (genKey r1 r2)) now])
    ∧ (mkGenLicense nid (email.getD "") plan (String.mk (genKey r1 r2)) now).is_used = false
    ∧ (mkGenLicense nid (email.getD "") plan (String.mk (genKey r1 r2)) now).status = "active"
    ∧ (mkGenLicense nid (email.getD "") plan (String.mk (genKey r1 r2)) now).expires_at = none
    ∧ (mkGenLicense nid (email.getD "") plan (String.mk (genKey r1 r2)) now).created_at = now
    ∧ (mkGenLicense nid (email.getD "") plan (String.mk (genKey r1 r2)) now).plan_duration
        = some (jsOrDefault plan "30 days")
    ∧ jsOrDefault none "30 days" = "30 days" := by
  refine ⟨?_, ?_, ?_, rfl, rfl, rfl, rfl, rfl, rfl⟩
  · simp [generateHandler, hbad]
  · simp [generateHandler, hnoe]
  · simp [generateHandler, hemail]

/-- C8 (witness): wrong secret with missing email, correct secret with empty
email, and a successful insert with the plan omitted (defaulting to
"30 days"). -/
theorem generate_contract_witness :
    generateHandler [] (some "a@b.com") none (some "wrong") "s" 7 8 1 0 true
        = (.unauthorized, [])
    ∧ generateHandler [] (some "") none (some "s") "s" 7 8 1 0 true
        = (.badRequest "Email required", [])
    ∧ generateHandler [] (some "a@b.com") none (some "s") "s" 7 8 1 0 false
        = (.ok (mkGenLicense 1 ((some "a@b.com").getD "") none (String.mk (genKey 7 8)) 0),
           [] ++ [mkGenLicense 1 ((some "a@b.com").getD "") none (String.mk (genKey 7 8)) 0])
    ∧ (mkGenLicense 1 ((some "a@b.com").getD "") none (String.mk (genKey 7 8)) 0).is_used
        = false
    ∧ (mkGenLicense 1 ((some "a@b.com").getD "") none (String.mk (genKey 7 8)) 0).status
        = "active"
    ∧ (mkGenLicense 1 ((some "a@b.com").getD "") none (String.mk (genKey 7 8)) 0).expires_at
        = none
    ∧ (mkGenLicense 1 ((some "a@b.com").getD "") none (String.mk (genKey 7 8)) 0).created_at
        = 0
    ∧ (mkGenLicense 1 ((some "a@b.com").getD "") none (String.mk (genKey 7 8)) 0).plan_duration
        = some (jsOrDefault none "30 days")
    ∧ jsOrDefault none "30 days" = "30 days" :=
  generate_contract [] (some "a@b.com") none (some "wrong") (some "") "s" 7 8 1 0 true
    (by decide) (by decide) (by decide)

/-- C9: verify treats an absent, null or empty-string email or license key
uniformly: 400 BadRequest "Missing email or license key", the store returned
unchanged (and untouched: the result holds for every store). -/
theorem verify_missing_fields (st : Store) (e k : Option String) (now : Int)
    (secret : String) (lf af : Bool)
    (h : jsFalsy e ∨ jsFalsy k) :
    verifyHandler st e k now secret lf af
        = (.badRequest "Missing email or license key", st)
    ∧ jsFalsy none ∧ jsFalsy (some "") := by
  refine ⟨?_, Or.inl rfl, Or.inr rfl⟩
  unfold verifyHandler
  rw [if_pos h]

/-- C9 (witness): an empty-string email with a present key. -/
theorem verify_missing_fields_witness :
    verifyHandler [] (some "") (some "K") 0 "s" false false
        = (.badRequest "Missing email or license key", [])
    ∧ jsFalsy none ∧ jsFalsy (some "") :=
  verify_missing_fields [] (some "") (some "K") 0 "s" false false (by decide)

/-- C10: on a verified credential whose license record has `expires_at` null
(never activated), `new Date(null)` is the epoch (`dateOf none = 0`), so
validate-token answers valid:false EXPIRED (for any positive current time)
and lazily writes status "expired" for that record. -/
theorem validate_null_expiry_epoch (st : Store) (t : Token) (secret : String)
    (l : License) (now : Int)
    (hsec : t.secret = secret) (hwin : now / 1000 < t.iat + 86400)
    (hid : findById st t.id = some l)
    (hexp : l.expires_at = none) (hstat : l.status = "active") (hnow : 0 < now) :
    dateOf l.expires_at = 0
    ∧ validateToken st (.bearer t) secret now false
        = (.invalid 401 "EXPIRED", updateStatus st l.id "expired")
    ∧ ((updateStatus st l.id "expired").filter (fun r => r.id = l.id)).all
        (fun r => r.status = "expired") = true := by
  refine ⟨by rw [hexp]; rfl, ?_, status_all_updateStatus st l.id "expired"⟩
  simp [validateToken, jwtVerify, hsec, hwin, hid, hexp, hstat, dateOf, hnow]

/-- C10 (witness): a never-activated license behind a freshly signed token at
time 100. -/
theorem validate_null_expiry_epoch_witness :
    dateOf wl10.expires_at = 0
    ∧ validateToken [wl10] (.bearer wt10) "s" 100 false
        = (.invalid 401 "EXPIRED", updateStatus [wl10] wl10.id "expired")
    ∧ ((updateStatus [wl10] wl10.id "expired").filter (fun r => r.id = wl10.id)).all
        (fun r => r.status = "expired") = true :=
  validate_null_expiry_epoch [wl10] wt10 "s" wl10 100
    (by decide) (by decide) (by decide) (by decide) (by decide) (by decide)

end LicenseServer
